import Mathlib

/-!
Shallow embedding of the orchestration logic of `_vsa_validator.py`
(a retrieval-augmented-generation pipeline: retrieve → grade →
conditionally web-search → generate), together with the document loader
and the vector-store creation/loading logic.

External AI services (the retriever over the vector index, the LLM
relevance grader, the web-search tool, the answer-generating LLM chain)
are modelled as oracle functions passed in as parameters; the embedded
definitions reproduce exactly the control flow of the Python source.
-/

namespace VsaValidator

/-- A LangChain `Document`: text content plus metadata (key/value pairs).
Mirrors `langchain.schema.Document` as used by the source. -/
structure Document where
  page_content : String
  metadata : List (String × String)
deriving DecidableEq, Repr

/-- One result returned by the Tavily web-search tool: the source reads
`d["content"]` and `d["url"]` from each result dict. -/
structure SearchResult where
  content : String
  url : String
deriving DecidableEq, Repr

/-- The `GraphState` TypedDict threaded through the langgraph pipeline. -/
structure GraphState where
  question : String
  generation : String
  search : String
  documents : List Document
  steps : List String
  answer : String
deriving DecidableEq, Repr

/-- The initial state used by `run_streamlit` when invoking the compiled
app: question set, every other field empty. -/
def initState (q : String) : GraphState :=
  { question := q, generation := "", search := "", documents := [],
    steps := [], answer := "" }

/-- Node `retrieve`: fetches documents for the question via the retriever
and appends `"retrieve_documents"` to the step trace.  The source keeps
`state["steps"]` when it is non-empty and otherwise starts from `[]`
(which is the same list either way); we embed that branch faithfully. -/
def retrieve (retrieverOracle : String → List Document)
    (state : GraphState) : GraphState :=
  let question := state.question
  let documents := retrieverOracle question
  let steps := if state.steps ≠ [] then state.steps else []
  { state with
    documents := documents,
    question := question,
    steps := steps ++ ["retrieve_documents"] }

/-- Node `generate`: runs the RAG chain on the question and current
documents, appends `"generate_answer"` to the step trace. -/
def generate (ragChainOracle : String → List Document → String)
    (state : GraphState) : GraphState :=
  let question := state.question
  let documents := state.documents
  let generation := ragChainOracle question documents
  { state with
    documents := documents,
    question := question,
    generation := generation,
    steps := state.steps ++ ["generate_answer"] }

/-- The loop body of `grade_documents`: fold over the retrieved documents,
keeping a document iff the grader returns exactly `"yes"` on its
`page_content`, and flipping `search` to `"Yes"` on any other grade. -/
def gradeLoop (graderOracle : String → String → String) (question : String)
    (documents : List Document) : List Document × String :=
  documents.foldl
    (fun acc d =>
      let grade := graderOracle question d.page_content
      if grade = "yes" then (acc.1 ++ [d], acc.2) else (acc.1, "Yes"))
    ([], "No")

/-- Node `grade_documents`: appends `"grade_document_retrieval"` to the
trace, grades each retrieved document with one LLM call, keeps only the
documents graded `"yes"`, and sets `search` to `"Yes"` as soon as any
document receives a grade other than `"yes"` (else it stays `"No"`). -/
def grade_documents (graderOracle : String → String → String)
    (state : GraphState) : GraphState :=
  let question := state.question
  let documents := state.documents
  let steps := state.steps ++ ["grade_document_retrieval"]
  let result := gradeLoop graderOracle question documents
  { state with
    documents := result.1,
    question := question,
    search := result.2,
    steps := steps }

/-- Node `web_search`: appends `"web_search"` to the trace, invokes the
search tool on the raw question, wraps each result as a `Document` whose
metadata is the single pair `("url", result.url)`, and appends the
wrapped results after the existing (filtered) document list. -/
def web_search (searchOracle : String → List SearchResult)
    (state : GraphState) : GraphState :=
  let question := state.question
  let documents := state.documents
  let web_results := searchOracle question
  let wrapped := web_results.map
    (fun d => Document.mk d.content [("url", d.url)])
  { state with
    documents := documents ++ wrapped,
    question := question,
    steps := state.steps ++ ["web_search"] }

/-- The conditional-edge callback `decide_to_generate`: returns the branch
key `"search"` when the search flag is `"Yes"`, else `"generate"`. -/
def decide_to_generate (state : GraphState) : String :=
  if state.search = "Yes" then "search" else "generate"

/-- The nodes of the compiled workflow graph, plus the langgraph `START`
and `END` pseudo-nodes. -/
inductive Node where
  | start
  | retrieve
  | grade_documents
  | web_search
  | generate
  | «end»
deriving DecidableEq, Repr

/-- The transition function of the workflow graph, read off the
`set_entry_point` / `add_edge` / `add_conditional_edges` calls: the entry
point is `retrieve`; `retrieve → grade_documents`; from `grade_documents`
the conditional edge maps the branch key `"search"` to `web_search` and
`"generate"` to `generate`; `web_search → generate`; `generate → END`. -/
def workflowNext (state : GraphState) : Node → Option Node
  | .start => some .retrieve
  | .retrieve => some .grade_documents
  | .grade_documents =>
      some (if decide_to_generate state = "search" then .web_search
            else .generate)
  | .web_search => some .generate
  | .generate => some .«end»
  | .«end» => none

/-- The state update a node performs when the graph executes it; `START`
and `END` leave the state unchanged. -/
def runNode (retrieverOracle : String → List Document)
    (graderOracle : String → String → String)
    (searchOracle : String → List SearchResult)
    (ragChainOracle : String → List Document → String) :
    Node → GraphState → GraphState
  | .start, s => s
  | .retrieve, s => retrieve retrieverOracle s
  | .grade_documents, s => grade_documents graderOracle s
  | .web_search, s => web_search searchOracle s
  | .generate, s => generate ragChainOracle s
  | .«end», s => s

/-- Fuel-bounded execution of the workflow graph from a node: run the
node, then follow `workflowNext` until `END` (or fuel runs out). -/
def execGraph (retrieverOracle : String → List Document)
    (graderOracle : String → String → String)
    (searchOracle : String → List SearchResult)
    (ragChainOracle : String → List Document → String) :
    Nat → Node → GraphState → GraphState
  | 0, _, s => s
  | _ + 1, .«end», s => s
  | fuel + 1, n, s =>
      let s' := runNode retrieverOracle graderOracle searchOracle
        ragChainOracle n s
      match workflowNext s' n with
      | some n' =>
          execGraph retrieverOracle graderOracle searchOracle
            ragChainOracle fuel n' s'
      | none => s'

/-- One full invocation of the compiled app (`app.invoke`): the unfolded
sequential run retrieve → grade_documents → (web_search when the branch
key is `"search"`) → generate. -/
def appInvoke (retrieverOracle : String → List Document)
    (graderOracle : String → String → String)
    (searchOracle : String → List SearchResult)
    (ragChainOracle : String → List Document → String)
    (state : GraphState) : GraphState :=
  let s1 := retrieve retrieverOracle state
  let s2 := grade_documents graderOracle s1
  let s3 := if decide_to_generate s2 = "search" then web_search searchOracle s2
            else s2
  generate ragChainOracle s3

/-- The loader selected for a source string: `WebBaseLoader` for sources
starting with `http` (checked first), `PyPDFLoader` for sources ending in
`.pdf`. -/
inductive Loader where
  | web (source : String)
  | pdf (source : String)
deriving DecidableEq, Repr

/-- Python's `str.startswith`, computed on the character list. -/
def strHasStart (s start : String) : Bool :=
  start.data.isPrefixOf s.data

/-- Python's `str.endswith`, computed on the character list. -/
def strHasEnd (s tail : String) : Bool :=
  tail.data.isSuffixOf s.data

/-- The branch at the top of the loop of `load_documents`: pick the web
loader when the source starts with `http`, else the PDF loader when it
ends with `.pdf`, else raise `ValueError(f"Unsupported source type: ...")`. -/
def selectLoader (source : String) : Except String Loader :=
  if strHasStart source "http" then Except.ok (Loader.web source)
  else if strHasEnd source ".pdf" then Except.ok (Loader.pdf source)
  else Except.error ("Unsupported source type: " ++ source)

/-- The accumulating loop of `load_documents`: `docs` starts empty and is
extended with each loader's output; an unsupported source aborts the loop
with the error. `loadOracle` models `loader.load()`. -/
def loadDocsAux (loadOracle : Loader → List Document)
    (docs : List Document) : List String → Except String (List Document)
  | [] => Except.ok docs
  | source :: rest =>
      match selectLoader source with
      | Except.ok l => loadDocsAux loadOracle (docs ++ loadOracle l) rest
      | Except.error e => Except.error e

/-- `load_documents`: load every source in order, concatenating the
documents; raises on the first unsupported source. -/
def load_documents (loadOracle : Loader → List Document)
    (sources : List String) : Except String (List Document) :=
  loadDocsAux loadOracle [] sources

/-- A FAISS vector store, modelled by the chunk list it indexes
(`FAISS.from_documents doc_splits embeddings`). -/
structure FAISSStore where
  chunks : List Document
deriving DecidableEq, Repr

/-- The `Creating new vector store...` tail of `create_or_load_vectorstore`:
load the documents (an unsupported source raises and propagates, uncaught),
split them (`splitOracle` models the tiktoken text splitter), build the
store with `FAISS.from_documents`, then try to save it — a save failure
(`saveResult = error`) is caught, printed, and otherwise ignored: the
built store is returned regardless.  The second component collects the
printed log lines. -/
def buildVectorstore (loadOracle : Loader → List Document)
    (splitOracle : List Document → List Document)
    (saveResult : Except String Unit) (index_path : String)
    (sources : List String) : Except String FAISSStore × List String :=
  match load_documents loadOracle sources with
  | Except.error e => (Except.error e, ["Creating new vector store..."])
  | Except.ok docs =>
      let doc_splits := splitOracle docs
      let vectorstore := FAISSStore.mk doc_splits
      match saveResult with
      | Except.ok _ =>
          (Except.ok vectorstore,
           ["Creating new vector store...",
            "Saving vector store to " ++ index_path ++ "...",
            "Vector store saved successfully."])
      | Except.error e =>
          (Except.ok vectorstore,
           ["Creating new vector store...",
            "Saving vector store to " ++ index_path ++ "...",
            "Error saving vector store: " ++ e])

/-- `create_or_load_vectorstore`: when `index.faiss` exists at the fixed
index path (`indexExists`), try `FAISS.load_local` (`loadLocal` models its
outcome) and return the loaded store on success; on a load failure, print
the error and fall through to rebuilding.  When the file does not exist,
rebuild directly.  The second component collects the printed log lines. -/
def create_or_load_vectorstore (indexExists : Bool)
    (loadLocal : Except String FAISSStore)
    (loadOracle : Loader → List Document)
    (splitOracle : List Document → List Document)
    (saveResult : Except String Unit) (index_path : String)
    (sources : List String) : Except String FAISSStore × List String :=
  let checkLog := ["Checking for index at: " ++ index_path ++ "/index.faiss"]
  if indexExists then
    match loadLocal with
    | Except.ok vectorstore =>
        (Except.ok vectorstore,
         checkLog ++
           ["Loading existing vector store from " ++ index_path ++ "/index.faiss",
            "Vector store loaded successfully."])
    | Except.error e =>
        let build := buildVectorstore loadOracle splitOracle saveResult
          index_path sources
        (build.1,
         checkLog ++
           ["Loading existing vector store from " ++ index_path ++ "/index.faiss",
            "Error loading vector store: " ++ e,
            "Will create a new vector store."] ++ build.2)
  else
    let build := buildVectorstore loadOracle splitOracle saveResult
      index_path sources
    (build.1,
     checkLog ++
       ["Vector store not found at " ++ index_path ++ "/index.faiss"] ++
       build.2)

/-! ### Concrete oracle instances used to exercise the pipeline -/

/-- A sample chunk, standing for one retrieved document. -/
def docA : Document := Document.mk "alpha clause text" []

/-- A retriever oracle returning the single chunk `docA`. -/
def oneDocRetriever : String → List Document := fun _ => [docA]

/-- A retriever oracle returning no chunks. -/
def emptyRetriever : String → List Document := fun _ => []

/-- A grader oracle judging every chunk irrelevant (`"no"`). -/
def constNoGrader : String → String → String := fun _ _ => "no"

/-- A grader oracle judging every chunk relevant (`"yes"`). -/
def constYesGrader : String → String → String := fun _ _ => "yes"

/-- A grader oracle answering with the capitalized string `"Yes"`,
which is not the lowercase `"yes"` the code compares against. -/
def capYesGrader : String → String → String := fun _ _ => "Yes"

/-- A web-search oracle returning no results. -/
def emptySearchTool : String → List SearchResult := fun _ => []

/-- A web-search oracle returning one result. -/
def oneResultSearchTool : String → List SearchResult :=
  fun _ => [SearchResult.mk "web snippet" "http://example.com"]

/-- A RAG-chain oracle returning a fixed answer string. -/
def constRagChain : String → List Document → String := fun _ _ => "answer"

/-- A graph state whose search flag is `"Yes"`. -/
def stateSearchYes : GraphState := { initState "q" with search := "Yes" }

/-- A graph state holding the single retrieved chunk `docA`. -/
def stateOneDoc : GraphState := { initState "q" with documents := [docA] }

/-- A load oracle under which every loader yields no documents. -/
def nullLoadOracle : Loader → List Document := fun _ => []

/-! ### Characterization lemmas for the pipeline nodes -/

/-- The grading fold, for an arbitrary starting accumulator: it appends the
documents graded `"yes"` to the accumulated list, and yields flag `"Yes"`
exactly when some document is graded otherwise (keeping the incoming flag
when every grade is `"yes"`). -/
theorem gradeLoop_foldl (g : String → String → String) (q : String)
    (docs : List Document) :
    ∀ acc : List Document × String,
      docs.foldl
        (fun acc d =>
          let grade := g q d.page_content
          if grade = "yes" then (acc.1 ++ [d], acc.2) else (acc.1, "Yes"))
        acc =
      (acc.1 ++ docs.filter (fun d => g q d.page_content = "yes"),
       if ∃ d ∈ docs, ¬ g q d.page_content = "yes" then "Yes" else acc.2) := by
  induction docs with
  | nil => intro acc; simp
  | cons d ds ih =>
      intro acc
      by_cases h : g q d.page_content = "yes"
      · simp only [List.foldl_cons, h, if_pos, ih]
        simp [h]
      · simp only [List.foldl_cons, h, if_neg, ih]
        simp [h]

/-- Closed form of `gradeLoop`: the filtered list is exactly the documents
graded `"yes"`, and the flag is `"Yes"` iff some document got another
grade. -/
theorem gradeLoop_eq (g : String → String → String) (q : String)
    (docs : List Document) :
    gradeLoop g q docs =
      (docs.filter (fun d => g q d.page_content = "yes"),
       if ∃ d ∈ docs, ¬ g q d.page_content = "yes" then "Yes" else "No") := by
  unfold gradeLoop
  rw [gradeLoop_foldl]
  simp

theorem grade_documents_documents (g : String → String → String)
    (s : GraphState) :
    (grade_documents g s).documents =
      s.documents.filter (fun d => g s.question d.page_content = "yes") := by
  simp [grade_documents, gradeLoop_eq]

theorem grade_documents_search (g : String → String → String)
    (s : GraphState) :
    (grade_documents g s).search =
      if ∃ d ∈ s.documents, ¬ g s.question d.page_content = "yes"
      then "Yes" else "No" := by
  simp [grade_documents, gradeLoop_eq]

theorem grade_documents_steps (g : String → String → String)
    (s : GraphState) :
    (grade_documents g s).steps = s.steps ++ ["grade_document_retrieval"] := by
  simp [grade_documents]

theorem grade_documents_question (g : String → String → String)
    (s : GraphState) :
    (grade_documents g s).question = s.question := by
  simp [grade_documents]

theorem retrieve_steps (r : String → List Document) (s : GraphState) :
    (retrieve r s).steps = s.steps ++ ["retrieve_documents"] := by
  by_cases h : s.steps = [] <;> simp [retrieve, h]

theorem retrieve_documents_eq (r : String → List Document) (s : GraphState) :
    (retrieve r s).documents = r s.question := by
  simp [retrieve]

theorem retrieve_question (r : String → List Document) (s : GraphState) :
    (retrieve r s).question = s.question := by
  simp [retrieve]

/-- Closed form of one full app invocation from the standard initial
state: the branch on whether some retrieved chunk is graded other than
`"yes"` determines the trace, the search flag, and whether the wrapped
web results are appended to the filtered documents. -/
theorem appInvoke_eq (r : String → List Document)
    (g : String → String → String) (se : String → List SearchResult)
    (ra : String → List Document → String) (q : String) :
    appInvoke r g se ra (initState q) =
      (let filtered := (r q).filter (fun d => g q d.page_content = "yes")
       let wrapped := (se q).map
         (fun d => Document.mk d.content [("url", d.url)])
       if ∃ d ∈ r q, ¬ g q d.page_content = "yes" then
         { question := q, generation := ra q (filtered ++ wrapped),
           search := "Yes", documents := filtered ++ wrapped,
           steps := ["retrieve_documents", "grade_document_retrieval",
                     "web_search", "generate_answer"],
           answer := "" }
       else
         { question := q, generation := ra q filtered, search := "No",
           documents := filtered,
           steps := ["retrieve_documents", "grade_document_retrieval",
                     "generate_answer"],
           answer := "" }) := by
  by_cases h : ∃ d ∈ r q, ¬ g q d.page_content = "yes" <;>
    simp [appInvoke, retrieve, grade_documents, web_search, generate,
      decide_to_generate, initState, gradeLoop_eq, h]

/-- Executing the workflow graph from `START` (with enough fuel: the
longest path, START → retrieve → grade_documents → web_search → generate
→ END, has six nodes) coincides with the unfolded sequential run
`appInvoke`. -/
theorem execGraph_eq_appInvoke (r : String → List Document)
    (g : String → String → String) (se : String → List SearchResult)
    (ra : String → List Document → String) (s : GraphState) :
    execGraph r g se ra 6 Node.start s = appInvoke r g se ra s := by
  by_cases h : (grade_documents g (retrieve r s)).search = "Yes" <;>
    simp [execGraph, runNode, workflowNext, decide_to_generate, appInvoke, h]

/-! ### Claim theorems -/

/-- C2: for every retrieved document list, `grade_documents` returns the
search flag `"Yes"` iff at least one chunk is graded irrelevant (one
suffices), and returns as its document list exactly the chunks graded
`"yes"`. -/
theorem grade_documents_flag_iff_and_filter (g : String → String → String)
    (s : GraphState) :
    ((grade_documents g s).search = "Yes" ↔
      ∃ d ∈ s.documents, ¬ g s.question d.page_content = "yes") ∧
    (grade_documents g s).documents =
      s.documents.filter (fun d => g s.question d.page_content = "yes") := by
  refine ⟨?_, grade_documents_documents g s⟩
  rw [grade_documents_search]
  by_cases h : ∃ d ∈ s.documents, ¬ g s.question d.page_content = "yes" <;>
    simp [h]

/-- C3: at the single conditional branch, a state with search flag `"Yes"`
goes from `grade_documents` to `web_search` and every other state goes
directly to `generate`; `web_search` always proceeds to `generate`; and
`generate` is the only node leading to the terminal state. -/
theorem workflow_branch_structure (s : GraphState) :
    (s.search = "Yes" →
      workflowNext s Node.grade_documents = some Node.web_search) ∧
    (¬ s.search = "Yes" →
      workflowNext s Node.grade_documents = some Node.generate) ∧
    workflowNext s Node.web_search = some Node.generate ∧
    (∀ n, workflowNext s n = some Node.«end» → n = Node.generate) := by
  refine ⟨?_, ?_, rfl, ?_⟩
  · intro h; simp [workflowNext, decide_to_generate, h]
  · intro h; simp [workflowNext, decide_to_generate, h]
  · intro n hn
    cases n with
    | start => simp [workflowNext] at hn
    | retrieve => simp [workflowNext] at hn
    | grade_documents =>
        simp only [workflowNext, Option.some.injEq] at hn
        split at hn <;> simp at hn
    | web_search => simp [workflowNext] at hn
    | generate => rfl
    | «end» => simp [workflowNext] at hn

/-- Witness for C3: the branch taken at concrete states with flag `"Yes"`
and flag `""`. -/
theorem workflow_branch_structure_witness :
    (stateSearchYes.search = "Yes" ∧
      workflowNext stateSearchYes Node.grade_documents =
        some Node.web_search) ∧
    (¬ (initState "q").search = "Yes" ∧
      workflowNext (initState "q") Node.grade_documents =
        some Node.generate) :=
  ⟨⟨rfl, (workflow_branch_structure stateSearchYes).1 rfl⟩,
   ⟨by decide, (workflow_branch_structure (initState "q")).2.1 (by decide)⟩⟩

/-- Counterexample to C1: with a retriever returning no documents, the
grading loop never runs, so the search flag stays `"No"` (not `"Yes"`)
and the web-search path is not exercised. -/
theorem empty_retrieval_flag_counterexample :
    (appInvoke emptyRetriever constNoGrader oneResultSearchTool constRagChain
        (initState "q")).search = "No" ∧
    (grade_documents constNoGrader
        (retrieve emptyRetriever (initState "q"))).documents = [] ∧
    ¬ "web_search" ∈ (appInvoke emptyRetriever constNoGrader
        oneResultSearchTool constRagChain (initState "q")).steps := by
  decide

/-- C1 (amended): if retrieval returns an empty document list, then
`grade_documents` yields an empty filtered list and leaves the search
flag at `"No"`, so the run goes directly to `generate` and the web-search
path is not exercised. -/
theorem empty_retrieval_no_search (r : String → List Document)
    (g : String → String → String) (se : String → List SearchResult)
    (ra : String → List Document → String) (q : String) (h : r q = []) :
    (grade_documents g (retrieve r (initState q))).documents = [] ∧
    (grade_documents g (retrieve r (initState q))).search = "No" ∧
    ¬ "web_search" ∈ (appInvoke r g se ra (initState q)).steps := by
  refine ⟨?_, ?_, ?_⟩
  · simp [grade_documents_documents, retrieve_question, retrieve_documents_eq,
      initState, h]
  · simp [grade_documents_search, retrieve_question, retrieve_documents_eq,
      initState, h]
  · rw [appInvoke_eq]
    simp [h]

/-- Witness for the amended C1 at the concrete empty retriever. -/
theorem empty_retrieval_no_search_witness :
    emptyRetriever "q" = [] ∧
    (grade_documents constYesGrader
        (retrieve emptyRetriever (initState "q"))).documents = [] ∧
    (grade_documents constYesGrader
        (retrieve emptyRetriever (initState "q"))).search = "No" ∧
    ¬ "web_search" ∈ (appInvoke emptyRetriever constYesGrader emptySearchTool
        constRagChain (initState "q")).steps :=
  ⟨rfl, empty_retrieval_no_search emptyRetriever constYesGrader
    emptySearchTool constRagChain "q" rfl⟩

/-- Counterexample to C4: a run in which the single retrieved chunk is
graded irrelevant but the web search returns no results — `web_search`
runs exactly once, yet the final document list equals the (empty)
filtered list, so it is not a strict superset of it. -/
theorem web_search_strict_superset_counterexample :
    ¬ constNoGrader "q" docA.page_content = "yes" ∧
    docA ∈ oneDocRetriever "q" ∧
    (appInvoke oneDocRetriever constNoGrader emptySearchTool constRagChain
        (initState "q")).steps.count "web_search" = 1 ∧
    (appInvoke oneDocRetriever constNoGrader emptySearchTool constRagChain
        (initState "q")).documents =
      (oneDocRetriever "q").filter
        (fun d => constNoGrader "q" d.page_content = "yes") := by
  decide

/-- C4 (amended): whenever at least one retrieved chunk is graded
irrelevant, `web_search` appears exactly once in the trace and the final
document list is the filtered relevant list with the web results — each
wrapped as a chunk carrying a URL-only metadata tag — appended after it,
never replacing it; hence every filtered chunk survives, and the final
set strictly exceeds the filtered set whenever some wrapped result is not
already among the filtered chunks. -/
theorem web_search_appends_results (r : String → List Document)
    (g : String → String → String) (se : String → List SearchResult)
    (ra : String → List Document → String) (q : String)
    (h : ∃ d ∈ r q, ¬ g q d.page_content = "yes") :
    (appInvoke r g se ra (initState q)).steps.count "web_search" = 1 ∧
    (appInvoke r g se ra (initState q)).documents =
      (r q).filter (fun d => g q d.page_content = "yes") ++
        (se q).map (fun d => Document.mk d.content [("url", d.url)]) ∧
    (∀ d ∈ (r q).filter (fun d => g q d.page_content = "yes"),
      d ∈ (appInvoke r g se ra (initState q)).documents) ∧
    (∀ w ∈ (se q).map (fun d => Document.mk d.content [("url", d.url)]),
      ¬ w ∈ (r q).filter (fun d => g q d.page_content = "yes") →
        ∃ d ∈ (appInvoke r g se ra (initState q)).documents,
          ¬ d ∈ (r q).filter (fun d => g q d.page_content = "yes")) := by
  rw [appInvoke_eq]
  simp only [h, if_pos]
  refine ⟨by decide, trivial, ?_, ?_⟩
  · intro d hd
    simp [hd]
  · intro w hw hnw
    exact ⟨w, by simp [hw], hnw⟩

/-- Witness for the amended C4: one irrelevant chunk, one web result. -/
theorem web_search_appends_results_witness :
    (∃ d ∈ oneDocRetriever "q",
      ¬ constNoGrader "q" d.page_content = "yes") ∧
    (appInvoke oneDocRetriever constNoGrader oneResultSearchTool constRagChain
        (initState "q")).steps.count "web_search" = 1 ∧
    (appInvoke oneDocRetriever constNoGrader oneResultSearchTool constRagChain
        (initState "q")).documents =
      (oneDocRetriever "q").filter
          (fun d => constNoGrader "q" d.page_content = "yes") ++
        (oneResultSearchTool "q").map
          (fun d => Document.mk d.content [("url", d.url)]) :=
  ⟨by decide,
   (web_search_appends_results oneDocRetriever constNoGrader
      oneResultSearchTool constRagChain "q" (by decide)).1,
   (web_search_appends_results oneDocRetriever constNoGrader
      oneResultSearchTool constRagChain "q" (by decide)).2.1⟩

/-- C5: whenever every retrieved chunk is graded relevant, `web_search`
never appears in the step-trace and the final document list equals the
filtered list produced by grading. -/
theorem all_relevant_no_web_search (r : String → List Document)
    (g : String → String → String) (se : String → List SearchResult)
    (ra : String → List Document → String) (q : String)
    (h : ∀ d ∈ r q, g q d.page_content = "yes") :
    ¬ "web_search" ∈ (appInvoke r g se ra (initState q)).steps ∧
    (appInvoke r g se ra (initState q)).documents =
      (grade_documents g (retrieve r (initState q))).documents := by
  have hne : ¬ ∃ d ∈ r q, ¬ g q d.page_content = "yes" := by
    rintro ⟨d, hd, hnd⟩
    exact hnd (h d hd)
  rw [appInvoke_eq, grade_documents_documents, retrieve_question,
    retrieve_documents_eq]
  simp [hne, initState]

/-- Witness for C5 at the constant-`"yes"` grader. -/
theorem all_relevant_no_web_search_witness :
    (∀ d ∈ oneDocRetriever "q", constYesGrader "q" d.page_content = "yes") ∧
    ¬ "web_search" ∈ (appInvoke oneDocRetriever constYesGrader emptySearchTool
        constRagChain (initState "q")).steps ∧
    (appInvoke oneDocRetriever constYesGrader emptySearchTool constRagChain
        (initState "q")).documents =
      (grade_documents constYesGrader
        (retrieve oneDocRetriever (initState "q"))).documents :=
  ⟨by decide,
   (all_relevant_no_web_search oneDocRetriever constYesGrader emptySearchTool
      constRagChain "q" (by decide)).1,
   (all_relevant_no_web_search oneDocRetriever constYesGrader emptySearchTool
      constRagChain "q" (by decide)).2⟩

/-- C6: for every completed request from the standard initial state, the
step `"generate_answer"` appears exactly once in the trace and is its
last entry. -/
theorem generate_once_and_last (r : String → List Document)
    (g : String → String → String) (se : String → List SearchResult)
    (ra : String → List Document → String) (q : String) :
    (appInvoke r g se ra (initState q)).steps.count "generate_answer" = 1 ∧
    (appInvoke r g se ra (initState q)).steps.getLast? =
      some "generate_answer" := by
  rw [appInvoke_eq]
  by_cases h : ∃ d ∈ r q, ¬ g q d.page_content = "yes" <;>
    simp only [h, if_pos, if_neg, not_false_iff] <;>
    exact ⟨by decide, by decide⟩

/-- C7: every request started from the standard initial state yields a
non-empty step-trace whose first entry is `"retrieve_documents"`. -/
theorem trace_starts_with_retrieve (r : String → List Document)
    (g : String → String → String) (se : String → List SearchResult)
    (ra : String → List Document → String) (q : String) :
    ¬ (appInvoke r g se ra (initState q)).steps = [] ∧
    (appInvoke r g se ra (initState q)).steps.head? =
      some "retrieve_documents" := by
  rw [appInvoke_eq]
  by_cases h : ∃ d ∈ r q, ¬ g q d.page_content = "yes" <;>
    simp only [h, if_pos, if_neg, not_false_iff] <;>
    exact ⟨by decide, by decide⟩

/-- The loading loop succeeds, from any accumulator, iff every remaining
source is supported (starts with `http` or ends with `.pdf`). -/
theorem loadDocsAux_ok_iff (lo : Loader → List Document)
    (sources : List String) :
    ∀ acc, (∃ docs, loadDocsAux lo acc sources = Except.ok docs) ↔
      ∀ s ∈ sources, strHasStart s "http" ∨ strHasEnd s ".pdf" := by
  induction sources with
  | nil => intro acc; simp [loadDocsAux]
  | cons s rest ih =>
      intro acc
      by_cases h1 : strHasStart s "http"
      · simp [loadDocsAux, selectLoader, h1, ih]
      · by_cases h2 : strHasEnd s ".pdf"
        · simp [loadDocsAux, selectLoader, h1, h2, ih]
        · simp [loadDocsAux, selectLoader, h1, h2]

/-- C8: loading succeeds exactly when every source starts with `http` or
ends with `.pdf`; any other source string yields the unsupported-source
error from the loader-selection check; and a loading error propagates
through the vector-store build, so no store is produced from those
sources. -/
theorem load_documents_supported_sources (lo : Loader → List Document)
    (sources : List String) (split : List Document → List Document)
    (save : Except String Unit) (path : String) :
    ((∃ docs, load_documents lo sources = Except.ok docs) ↔
      ∀ s ∈ sources, strHasStart s "http" ∨ strHasEnd s ".pdf") ∧
    (∀ s : String, ¬ strHasStart s "http" → ¬ strHasEnd s ".pdf" →
      selectLoader s = Except.error ("Unsupported source type: " ++ s)) ∧
    (∀ e, load_documents lo sources = Except.error e →
      (buildVectorstore lo split save path sources).1 = Except.error e) := by
  refine ⟨loadDocsAux_ok_iff lo sources [], ?_, ?_⟩
  · intro s h1 h2
    simp [selectLoader, h1, h2]
  · intro e he
    simp [buildVectorstore, he]

/-- Witness for C8: a `.docx` source fails with the unsupported-source
error, and the build propagates it. -/
theorem load_documents_supported_sources_witness :
    selectLoader "a.docx" = Except.error "Unsupported source type: a.docx" ∧
    load_documents nullLoadOracle ["a.docx"] =
      Except.error "Unsupported source type: a.docx" ∧
    (buildVectorstore nullLoadOracle id (Except.ok ()) "p" ["a.docx"]).1 =
      Except.error "Unsupported source type: a.docx" :=
  ⟨(load_documents_supported_sources nullLoadOracle ["a.docx"] id
      (Except.ok ()) "p").2.1 "a.docx" (by decide) (by decide),
   rfl,
   (load_documents_supported_sources nullLoadOracle ["a.docx"] id
      (Except.ok ()) "p").2.2 "Unsupported source type: a.docx" rfl⟩

/-- Counterexample to C9: with no index on disk and an unsupported source,
the rebuild fails while loading the documents and
`create_or_load_vectorstore` propagates the error instead of returning an
index object, so a rebuild failure is not merely logged. -/
theorem rebuild_failure_counterexample :
    (create_or_load_vectorstore false (Except.error "load failed")
        nullLoadOracle id (Except.ok ()) "p" ["a.docx"]).1 =
      Except.error "Unsupported source type: a.docx" := rfl

/-- C9 (amended): `create_or_load_vectorstore` returns the store loaded
from the fixed path when one exists there and loading succeeds; if
loading fails it falls back to rebuilding from the sources; a failure
while persisting the rebuilt store is only logged (the error line appears
in the log) and the rebuilt store is still returned; but a failure while
loading the documents during the rebuild propagates as an error rather
than returning an index. -/
theorem create_or_load_vectorstore_behaviour
    (loadLocal : Except String FAISSStore) (lo : Loader → List Document)
    (split : List Document → List Document) (save : Except String Unit)
    (path : String) (sources : List String) :
    (∀ vs, loadLocal = Except.ok vs →
      (create_or_load_vectorstore true loadLocal lo split save path
        sources).1 = Except.ok vs) ∧
    (∀ e, loadLocal = Except.error e →
      (create_or_load_vectorstore true loadLocal lo split save path
        sources).1 = (buildVectorstore lo split save path sources).1) ∧
    ((create_or_load_vectorstore false loadLocal lo split save path
        sources).1 = (buildVectorstore lo split save path sources).1) ∧
    (∀ docs, load_documents lo sources = Except.ok docs →
      (buildVectorstore lo split save path sources).1 =
        Except.ok (FAISSStore.mk (split docs)) ∧
      (∀ e, save = Except.error e →
        ("Error saving vector store: " ++ e) ∈
          (buildVectorstore lo split save path sources).2)) ∧
    (∀ e, load_documents lo sources = Except.error e →
      (buildVectorstore lo split save path sources).1 = Except.error e) := by
  refine ⟨?_, ?_, ?_, ?_, ?_⟩
  · intro vs hvs
    simp [create_or_load_vectorstore, hvs]
  · intro e he
    simp [create_or_load_vectorstore, he]
  · simp [create_or_load_vectorstore]
  · intro docs hdocs
    refine ⟨?_, ?_⟩
    · cases hsave : save <;> simp [buildVectorstore, hdocs, hsave]
    · intro e hsave
      simp [buildVectorstore, hdocs, hsave]
  · intro e he
    simp [buildVectorstore, he]

/-- Witness for the amended C9: load success returns the loaded store;
with a save failure the rebuilt store is still returned and the save
error is logged. -/
theorem create_or_load_vectorstore_behaviour_witness :
    (create_or_load_vectorstore true (Except.ok (FAISSStore.mk [docA]))
        nullLoadOracle id (Except.ok ()) "p" ["x.pdf"]).1 =
      Except.ok (FAISSStore.mk [docA]) ∧
    (buildVectorstore nullLoadOracle id (Except.error "disk full") "p"
        ["x.pdf"]).1 = Except.ok (FAISSStore.mk (id [])) ∧
    ("Error saving vector store: " ++ "disk full") ∈
      (buildVectorstore nullLoadOracle id (Except.error "disk full") "p"
        ["x.pdf"]).2 :=
  ⟨(create_or_load_vectorstore_behaviour (Except.ok (FAISSStore.mk [docA]))
      nullLoadOracle id (Except.ok ()) "p" ["x.pdf"]).1
      (FAISSStore.mk [docA]) rfl,
   ((create_or_load_vectorstore_behaviour (Except.error "boom")
      nullLoadOracle id (Except.error "disk full") "p" ["x.pdf"]).2.2.2.1
      [] rfl).1,
   ((create_or_load_vectorstore_behaviour (Except.error "boom")
      nullLoadOracle id (Except.error "disk full") "p" ["x.pdf"]).2.2.2.1
      [] rfl).2 "disk full" rfl⟩

/-- C10: in `grade_documents`, any grader output other than the lowercase
string `"yes"` causes the chunk to be dropped from the filtered list and
the search flag to be set to `"Yes"`; and the node's output depends only
on whether each grade equals `"yes"`, so there is no separate
decode-failure path for malformed scores. -/
theorem grader_nonyes_drops_and_flags (g : String → String → String)
    (s : GraphState) (d : Document) (hd : d ∈ s.documents)
    (hg : ¬ g s.question d.page_content = "yes") :
    ¬ d ∈ (grade_documents g s).documents ∧
    (grade_documents g s).search = "Yes" ∧
    (∀ g2 : String → String → String,
      (∀ e ∈ s.documents,
        (g2 s.question e.page_content = "yes" ↔
          g s.question e.page_content = "yes")) →
      grade_documents g2 s = grade_documents g s) := by
  refine ⟨?_, ?_, ?_⟩
  · rw [grade_documents_documents]
    simp only [List.mem_filter, decide_eq_true_eq, not_and]
    intro _ hyes
    exact hg hyes
  · rw [grade_documents_search]
    exact if_pos ⟨d, hd, hg⟩
  · intro g2 h2
    have hdocs :
        s.documents.filter (fun e => g2 s.question e.page_content = "yes") =
          s.documents.filter (fun e => g s.question e.page_content = "yes") :=
      List.filter_congr (fun e he => by simp [h2 e he])
    have hsearch :
        (∃ e ∈ s.documents, ¬ g2 s.question e.page_content = "yes") ↔
          (∃ e ∈ s.documents, ¬ g s.question e.page_content = "yes") := by
      constructor
      · rintro ⟨e, he, hne⟩
        exact ⟨e, he, fun hc => hne ((h2 e he).mpr hc)⟩
      · rintro ⟨e, he, hne⟩
        exact ⟨e, he, fun hc => hne ((h2 e he).mp hc)⟩
    simp only [grade_documents, gradeLoop_eq]
    rw [hdocs, if_congr hsearch rfl rfl]

/-- Witness for C10: a grader answering the capitalized `"Yes"` drops the
chunk and raises the flag. -/
theorem grader_nonyes_drops_and_flags_witness :
    docA ∈ stateOneDoc.documents ∧
    ¬ capYesGrader stateOneDoc.question docA.page_content = "yes" ∧
    ¬ docA ∈ (grade_documents capYesGrader stateOneDoc).documents ∧
    (grade_documents capYesGrader stateOneDoc).search = "Yes" :=
  ⟨by decide, by decide,
   (grader_nonyes_drops_and_flags capYesGrader stateOneDoc docA (by decide)
      (by decide)).1,
   (grader_nonyes_drops_and_flags capYesGrader stateOneDoc docA (by decide)
      (by decide)).2.1⟩

end VsaValidator
